import Mathlib

/-!
Verification development for the fallbackdm repository (Rust).

Shallow embedding of the three source files:
  * `src/pam.rs`   — the PAM conversation callback `converse`, the
    `PasswordlessClient` state machine and its `Drop` implementation,
    and the default conversation handler `SimpleConv`;
  * `src/main.rs`  — the orchestrator `take_control` together with
    `start_pam_session` and the diagnostic probe `check_vt_status`;
  * `src/input.rs` — the blocking keyboard wait `wait_for_keyboard_event`.

External effects (the PAM library calls, D-Bus calls, libc allocation,
libinput events, the tty device) are modelled as explicit oracle inputs;
the control flow, state updates and produced traces are translated
directly from the Rust source.
-/

namespace Fallbackdm

/-- Return codes of the PAM library that appear in the source; every other
numeric code is represented by `other`. -/
inductive PamReturnCode where
  | Success
  | Buf_Err
  | Conv_Err
  | Perm_Denied
  | other (n : Nat)
deriving DecidableEq, Repr

/-- The four PAM message styles matched on in `converse` (pam.rs:174). -/
inductive PamMessageStyle where
  | Prompt_Echo_On
  | Prompt_Echo_Off
  | Text_Info
  | Error_Msg
deriving DecidableEq, Repr

/-- One entry of the `msg` array passed to the conversation callback. -/
structure PamMessage where
  msg_style : PamMessageStyle
  msg : String
deriving DecidableEq, Repr

/-- A conversation handler: the two fallible prompt operations of the
`Conversation` trait.  (`info` and `error` return unit in the source and
contribute nothing to the data flow of `converse` beyond the result code,
which `converse` itself sets.) -/
structure Conversation where
  prompt_echo : String → Except Unit String
  prompt_blind : String → Except Unit String

/-- `CString::new` fails exactly when the string contains an interior NUL
byte (Rust `std::ffi::CString::new`). -/
def cstringNew (s : String) : Except Unit String :=
  if s.toList.contains (Char.ofNat 0) then Except.error () else Except.ok s

/-- The default handler `SimpleConv` (pam.rs:129-140): every echo prompt is
answered with `"root"`, every blind prompt with `"no password"`. -/
def simpleConv : Conversation where
  prompt_echo := fun _ => cstringNew "root"
  prompt_blind := fun _ => cstringNew "no password"

/-- One iteration of the `converse` loop body (pam.rs:166-196): the slot
value written into `resp[i].resp` (`none` = left as calloc-zeroed null) and
the result code after handling this message (`Success` when the code's
`result` variable is untouched). -/
def processMsg (h : Conversation) (m : PamMessage) :
    Option String × PamReturnCode :=
  match m.msg_style with
  | PamMessageStyle.Prompt_Echo_On =>
    match h.prompt_echo m.msg with
    | Except.ok r => (some r, PamReturnCode.Success)
    | Except.error _ => (none, PamReturnCode.Conv_Err)
  | PamMessageStyle.Prompt_Echo_Off =>
    match h.prompt_blind m.msg with
    | Except.ok r => (some r, PamReturnCode.Success)
    | Except.error _ => (none, PamReturnCode.Conv_Err)
  | PamMessageStyle.Text_Info => (none, PamReturnCode.Success)
  | PamMessageStyle.Error_Msg => (none, PamReturnCode.Conv_Err)

/-- Does a message fail in `converse` (Error style, or a prompt whose
handler call fails)? -/
def failsAt (h : Conversation) (m : PamMessage) : Bool :=
  if (processMsg h m).2 = PamReturnCode.Success then false else true

/-- Is a message one of the two prompt styles (the ones that produce a
populated response slot)? -/
def isPrompt (m : PamMessage) : Bool :=
  match m.msg_style with
  | PamMessageStyle.Prompt_Echo_On => true
  | PamMessageStyle.Prompt_Echo_Off => true
  | _ => false

/-- The `for i in 0..num_msg` loop of `converse` (pam.rs:166-200): returns
the final content of the calloc-zeroed slot array (always one slot per
message; unreached slots stay `none`), the final `result` variable, and the
number of loop iterations executed (the loop breaks right after the first
message that sets `result` to a non-`Success` code). -/
def converseLoop (h : Conversation) :
    List PamMessage → List (Option String) × PamReturnCode × Nat
  | [] => ([], PamReturnCode.Success, 0)
  | m :: rest =>
    let r := processMsg h m
    if r.2 = PamReturnCode.Success then
      let out := converseLoop h rest
      (r.1 :: out.1, out.2.1, out.2.2 + 1)
    else
      (r.1 :: rest.map (fun _ => none), r.2, 1)

/-- Outcome of one `converse` call: the returned code, the buffer written
through `out_resp` (`none` = the out-parameter was left unwritten), the
number of requests processed, and whether `free(resp)` was called on the
slot buffer. -/
structure ConverseResult where
  code : PamReturnCode
  out_resp : Option (List (Option String))
  processed : Nat
  freed : Bool
deriving DecidableEq, Repr

/-- The conversation callback `converse` (pam.rs:150-210).  `allocOk` is
the calloc oracle: when allocation fails the function returns `Buf_Err`
immediately; otherwise the loop runs and, depending on the final `result`,
the buffer is either freed (failure) or handed back (success). -/
def converse (h : Conversation) (allocOk : Bool) (msgs : List PamMessage) :
    ConverseResult :=
  if allocOk = false then
    { code := PamReturnCode.Buf_Err, out_resp := none, processed := 0,
      freed := false }
  else
    let out := converseLoop h msgs
    if out.2.1 = PamReturnCode.Success then
      { code := out.2.1, out_resp := some out.1, processed := out.2.2,
        freed := false }
    else
      { code := out.2.1, out_resp := none, processed := out.2.2,
        freed := true }

/-- Every loop iteration leaves `result` either untouched (`Success`) or
sets it to `Conv_Err`; no other code is ever assigned in the loop body. -/
theorem processMsg_code (h : Conversation) (m : PamMessage) :
    (processMsg h m).2 = PamReturnCode.Success ∨
      (processMsg h m).2 = PamReturnCode.Conv_Err := by
  obtain ⟨style, text⟩ := m
  cases style <;> simp only [processMsg]
  · cases h.prompt_echo text <;> simp
  · cases h.prompt_blind text <;> simp
  · simp
  · simp

/-- The loop finishes with `Success` exactly when every message in the
batch succeeds. -/
theorem converseLoop_success_iff (h : Conversation) (msgs : List PamMessage) :
    (converseLoop h msgs).2.1 = PamReturnCode.Success ↔
      ∀ m ∈ msgs, (processMsg h m).2 = PamReturnCode.Success := by
  induction msgs with
  | nil => simp [converseLoop]
  | cons m rest ih =>
    by_cases hm : (processMsg h m).2 = PamReturnCode.Success
    · simp [converseLoop, hm, ih]
    · have hc : (converseLoop h (m :: rest)).2.1 = (processMsg h m).2 := by
        simp [converseLoop, hm]
      rw [hc]
      constructor
      · intro hfalse
        exact absurd hfalse hm
      · intro hall
        exact absurd (hall m (List.mem_cons_self m rest)) hm

/-- When every message succeeds, the loop fills one slot per message in
order and processes the whole batch. -/
theorem converseLoop_success_eq (h : Conversation) (msgs : List PamMessage)
    (hall : ∀ m ∈ msgs, (processMsg h m).2 = PamReturnCode.Success) :
    converseLoop h msgs =
      (msgs.map (fun m => (processMsg h m).1), PamReturnCode.Success,
        msgs.length) := by
  induction msgs with
  | nil => simp [converseLoop]
  | cons m rest ih =>
    have hm : (processMsg h m).2 = PamReturnCode.Success :=
      hall m (List.mem_cons_self m rest)
    have hrest : ∀ x ∈ rest, (processMsg h x).2 = PamReturnCode.Success :=
      fun x hx => hall x (List.mem_cons_of_mem m hx)
    simp [converseLoop, hm, ih hrest]

/-- When some message fails, the loop returns `Conv_Err` and stops right
after the first failing message. -/
theorem converseLoop_failure (h : Conversation) (msgs : List PamMessage)
    (hex : ∃ m ∈ msgs, failsAt h m = true) :
    (converseLoop h msgs).2.1 = PamReturnCode.Conv_Err ∧
      (converseLoop h msgs).2.2 = msgs.findIdx (failsAt h) + 1 ∧
      (converseLoop h msgs).2.2 ≤ msgs.length := by
  induction msgs with
  | nil => simp at hex
  | cons m rest ih =>
    by_cases hm : (processMsg h m).2 = PamReturnCode.Success
    · have hmfail : failsAt h m = false := by simp [failsAt, hm]
      have hex' : ∃ x ∈ rest, failsAt h x = true := by
        rcases hex with ⟨x, hx, hfx⟩
        rcases List.mem_cons.mp hx with rfl | hx'
        · exact absurd hfx (by simp [hmfail])
        · exact ⟨x, hx', hfx⟩
      obtain ⟨h1, h2, h3⟩ := ih hex'
      refine ⟨by simpa [converseLoop, hm] using h1, ?_, ?_⟩
      · simp [converseLoop, hm, h2, List.findIdx_cons, hmfail]
      · simpa [converseLoop, hm] using Nat.succ_le_succ h3
    · have hmfail : failsAt h m = true := by simp [failsAt, hm]
      have hcode : (processMsg h m).2 = PamReturnCode.Conv_Err :=
        (processMsg_code h m).resolve_left hm
      refine ⟨by simp [converseLoop, hm, hcode], ?_, ?_⟩
      · simp [converseLoop, hm, List.findIdx_cons, hmfail]
      · simp [converseLoop, hm]

/-- A successful slot is populated exactly for prompt-style messages. -/
theorem processMsg_isSome (h : Conversation) (m : PamMessage)
    (hs : (processMsg h m).2 = PamReturnCode.Success) :
    (processMsg h m).1.isSome = isPrompt m := by
  obtain ⟨style, text⟩ := m
  cases style <;> simp only [processMsg, isPrompt] at *
  · cases hh : h.prompt_echo text <;> simp [hh] at hs ⊢
  · cases hh : h.prompt_blind text <;> simp [hh] at hs ⊢
  · simp
  · simp at hs

/-- Counting populated slots over the mapped slot list equals counting
prompt messages, whenever the slots are populated exactly at prompts. -/
theorem countP_slots (h : Conversation) (msgs : List PamMessage)
    (hp : ∀ m ∈ msgs, (processMsg h m).1.isSome = isPrompt m) :
    (msgs.map (fun m => (processMsg h m).1)).countP (fun o => o.isSome) =
      msgs.countP isPrompt := by
  induction msgs with
  | nil => simp
  | cons m rest ih =>
    have hm := hp m (List.mem_cons_self m rest)
    have hrest : ∀ x ∈ rest, (processMsg h x).1.isSome = isPrompt x :=
      fun x hx => hp x (List.mem_cons_of_mem m hx)
    simp [List.countP_cons, hm, ih hrest]

/-- Claim C1: in any conversation batch in which some request resolves to
`Error` style or a prompt handler call fails, `converse` returns
`Conv_Err`, the out-parameter is left unwritten (no response buffer is
handed back to the caller), the slot buffer — including every
already-populated response slot — is released by `free`, and processing
stops right after the first failing request (no further requests in the
batch are processed). -/
theorem converse_error_batch (h : Conversation) (msgs : List PamMessage)
    (hex : ∃ m ∈ msgs, failsAt h m = true) :
    (converse h true msgs).code = PamReturnCode.Conv_Err ∧
      (converse h true msgs).out_resp = none ∧
      (converse h true msgs).freed = true ∧
      (converse h true msgs).processed = msgs.findIdx (failsAt h) + 1 ∧
      (converse h true msgs).processed ≤ msgs.length := by
  obtain ⟨h1, h2, h3⟩ := converseLoop_failure h msgs hex
  have hne : (converseLoop h msgs).2.1 ≠ PamReturnCode.Success := by
    rw [h1]; intro hfalse; exact PamReturnCode.noConfusion hfalse
  have hc : converse h true msgs =
      { code := (converseLoop h msgs).2.1, out_resp := none,
        processed := (converseLoop h msgs).2.2, freed := true } := by
    simp [converse, hne]
  rw [hc]
  exact ⟨h1, rfl, rfl, h2, h3⟩

/-- Witness for C1 on the concrete batch `[Error "denied"]`. -/
theorem converse_error_batch_w :
    (converse simpleConv true
        [{ msg_style := PamMessageStyle.Error_Msg, msg := "denied" }]).code =
      PamReturnCode.Conv_Err ∧
    (converse simpleConv true
        [{ msg_style := PamMessageStyle.Error_Msg, msg := "denied" }]).out_resp =
      none :=
  ⟨(converse_error_batch simpleConv
      [{ msg_style := PamMessageStyle.Error_Msg, msg := "denied" }]
      (by decide)).1,
   (converse_error_batch simpleConv
      [{ msg_style := PamMessageStyle.Error_Msg, msg := "denied" }]
      (by decide)).2.1⟩

/-- Claim C3: a conversation batch that completes successfully hands back a
buffer with exactly one slot per request, slot `i` being the handler
response to request `i` (so the order is preserved), populated exactly at
the prompt-style requests; hence the number of populated slots equals the
number of prompt-style requests, and the whole batch was processed. -/
theorem converse_success_slots (h : Conversation) (msgs : List PamMessage)
    (hs : (converse h true msgs).code = PamReturnCode.Success) :
    (converse h true msgs).out_resp =
        some (msgs.map (fun m => (processMsg h m).1)) ∧
      (msgs.map (fun m => (processMsg h m).1)).length = msgs.length ∧
      (∀ m ∈ msgs, (processMsg h m).1.isSome = isPrompt m) ∧
      (msgs.map (fun m => (processMsg h m).1)).countP (fun o => o.isSome) =
        msgs.countP isPrompt ∧
      (converse h true msgs).processed = msgs.length := by
  have hloop : (converseLoop h msgs).2.1 = PamReturnCode.Success := by
    by_contra hne
    simp [converse, hne] at hs
  have hall : ∀ m ∈ msgs, (processMsg h m).2 = PamReturnCode.Success :=
    (converseLoop_success_iff h msgs).mp hloop
  have heq := converseLoop_success_eq h msgs hall
  have hp : ∀ m ∈ msgs, (processMsg h m).1.isSome = isPrompt m :=
    fun m hm => processMsg_isSome h m (hall m hm)
  have hc : converse h true msgs =
      { code := PamReturnCode.Success,
        out_resp := some (msgs.map (fun m => (processMsg h m).1)),
        processed := msgs.length, freed := false } := by
    simp [converse, heq]
  rw [hc]
  exact ⟨rfl, by simp, hp, countP_slots h msgs hp, rfl⟩

/-- Witness for C3 on the concrete batch `[EchoPrompt "login:", Info "hi"]`. -/
theorem converse_success_slots_w :
    (converse simpleConv true
        [{ msg_style := PamMessageStyle.Prompt_Echo_On, msg := "login:" },
         { msg_style := PamMessageStyle.Text_Info, msg := "hi" }]).out_resp =
      some
        ([{ msg_style := PamMessageStyle.Prompt_Echo_On, msg := "login:" },
          { msg_style := PamMessageStyle.Text_Info, msg := "hi" }].map
          (fun m => (processMsg simpleConv m).1)) :=
  (converse_success_slots simpleConv
      [{ msg_style := PamMessageStyle.Prompt_Echo_On, msg := "login:" },
       { msg_style := PamMessageStyle.Text_Info, msg := "hi" }]
      (by decide)).1

/-- `"root"` has no interior NUL byte, so `CString::new` succeeds on it. -/
theorem cstringNew_root : cstringNew "root" = Except.ok "root" := by
  have hnul : ("root".toList.contains (Char.ofNat 0)) = false := by decide
  simp [cstringNew, hnul]

/-- `"no password"` has no interior NUL byte either. -/
theorem cstringNew_nopass :
    cstringNew "no password" = Except.ok "no password" := by
  have hnul : ("no password".toList.contains (Char.ofNat 0)) = false := by
    decide
  simp [cstringNew, hnul]

/-- With the default handler, a message fails exactly when it is of
`Error` style (the fixed prompt answers contain no NUL, so `CString::new`
never fails on them). -/
theorem simpleConv_failsAt (m : PamMessage) :
    failsAt simpleConv m = true ↔ m.msg_style = PamMessageStyle.Error_Msg := by
  obtain ⟨style, text⟩ := m
  cases style <;>
    simp [failsAt, processMsg, simpleConv, cstringNew_root, cstringNew_nopass]

/-- Claim C9: the default conversation handler is total — `prompt_echo`
always answers `"root"` and `prompt_blind` always answers `"no password"`,
neither ever returning an error — and consequently a conversation batch
run with this handler fails exactly when the batch contains an
`Error`-style request. -/
theorem simple_conv_total :
    (∀ m : String, simpleConv.prompt_echo m = Except.ok "root") ∧
      (∀ m : String, simpleConv.prompt_blind m = Except.ok "no password") ∧
      (∀ msgs : List PamMessage,
        ((converse simpleConv true msgs).code ≠ PamReturnCode.Success ↔
          ∃ m ∈ msgs, m.msg_style = PamMessageStyle.Error_Msg)) := by
  refine ⟨fun m => cstringNew_root, fun m => cstringNew_nopass,
    fun msgs => ?_⟩
  have hcode : (converse simpleConv true msgs).code =
      (converseLoop simpleConv msgs).2.1 := by
    by_cases hl :
        (converseLoop simpleConv msgs).2.1 = PamReturnCode.Success <;>
      simp [converse, hl]
  rw [hcode]
  constructor
  · intro hne
    have : ¬ ∀ m ∈ msgs,
        (processMsg simpleConv m).2 = PamReturnCode.Success := by
      intro hall
      exact hne ((converseLoop_success_iff simpleConv msgs).mpr hall)
    push_neg at this
    obtain ⟨m, hm, hfail⟩ := this
    refine ⟨m, hm, ?_⟩
    exact (simpleConv_failsAt m).mp (by simp [failsAt, hfail])
  · intro hex hsucc
    obtain ⟨m, hm, hstyle⟩ := hex
    have hfail : failsAt simpleConv m = true :=
      (simpleConv_failsAt m).mpr hstyle
    have hms := (converseLoop_success_iff simpleConv msgs).mp hsucc m hm
    simp [failsAt, hms] at hfail

/-- The `PasswordlessClient` struct (pam.rs:44-52), minus the opaque FFI
`handle` and the boxed conversation handler, neither of which carries
client-visible state read by this code. -/
structure PasswordlessClient where
  close_on_drop : Bool
  is_authenticated : Bool
  has_open_session : Bool
  last_code : PamReturnCode
deriving DecidableEq, Repr

/-- `PasswordlessClient::new_client` (pam.rs:56-69), in the successful
case: all flags start out false, `close_on_drop` true, `last_code`
`Success`. -/
def new_client : PasswordlessClient :=
  { close_on_drop := true, is_authenticated := false,
    has_open_session := false, last_code := PamReturnCode.Success }

/-- `PasswordlessClient::authenticate` (pam.rs:72-80).  `code` is the
return code of the PAM `authenticate` call. -/
def authenticate (c : PasswordlessClient) (code : PamReturnCode) :
    PasswordlessClient × Except PamReturnCode Unit :=
  let c1 := { c with last_code := code }
  if c1.last_code ≠ PamReturnCode.Success then (c1, Except.error c1.last_code)
  else ({ c1 with is_authenticated := true }, Except.ok ())

/-- `PasswordlessClient::open_session` (pam.rs:84-96).  `code` is the
return code of the PAM `open_session` call; it is never consulted (and
`last_code` never written) when the authentication guard fails. -/
def open_session (c : PasswordlessClient) (code : PamReturnCode) :
    PasswordlessClient × Except PamReturnCode Unit :=
  if ¬ c.is_authenticated then (c, Except.error PamReturnCode.Perm_Denied)
  else
    let c1 := { c with last_code := code }
    if c1.last_code ≠ PamReturnCode.Success then
      (c1, Except.error c1.last_code)
    else ({ c1 with has_open_session := true }, Except.ok ())

/-- `PasswordlessClient::get_env` (pam.rs:99-101): a pass-through to PAM's
`getenv` on the handle; `oracle` is that call's result.  No struct field is
read or written. -/
def get_env (c : PasswordlessClient)
    (oracle : Except PamReturnCode (Option String)) :
    PasswordlessClient × Except PamReturnCode (Option String) :=
  (c, oracle)

/-- `PasswordlessClient::set_env` (pam.rs:103-106): formats `key=value` and
passes it to PAM's `putenv` on the handle; `oracle` is that call's result.
No struct field is read or written. -/
def set_env (c : PasswordlessClient) (key value : String)
    (oracle : Except PamReturnCode Unit) :
    PasswordlessClient × Except PamReturnCode Unit :=
  (c, oracle)

/-- The externally visible PAM calls issued by `Drop for
PasswordlessClient`. -/
inductive DropEvent where
  | closeSession (code : PamReturnCode)
  | endHandle (code : PamReturnCode)
deriving DecidableEq, Repr

/-- Recognizer for the session-close call. -/
def DropEvent.isCloseSession : DropEvent → Bool
  | DropEvent.closeSession _ => true
  | _ => false

/-- Recognizer for the handle-finalizing `end` call. -/
def DropEvent.isEndHandle : DropEvent → Bool
  | DropEvent.endHandle _ => true
  | _ => false

/-- `Drop for PasswordlessClient` (pam.rs:109-117): `result` starts as
`Success`; if `has_open_session && close_on_drop` a single
`close_session` call is made and its return code (`closeCode`, the
oracle) becomes `result`; then `end(handle, result)` is called exactly
once.  The returned list is the sequence of PAM calls issued, each with
the code it returned / was passed. -/
def dropClient (c : PasswordlessClient) (closeCode : PamReturnCode) :
    List DropEvent :=
  if c.has_open_session ∧ c.close_on_drop then
    [DropEvent.closeSession closeCode, DropEvent.endHandle closeCode]
  else
    [DropEvent.endHandle PamReturnCode.Success]

/-- States of `PasswordlessClient` that the program can construct: the
constructor followed by any sequence of the four operations with arbitrary
PAM return codes. -/
inductive Reachable : PasswordlessClient → Prop where
  | init : Reachable new_client
  | stepAuth {c code} : Reachable c → Reachable (authenticate c code).1
  | stepOpen {c code} : Reachable c → Reachable (open_session c code).1
  | stepGetEnv {c o} : Reachable c → Reachable (get_env c o).1
  | stepSetEnv {c k v o} : Reachable c → Reachable (set_env c k v o).1

/-- Claim C2, counterexample: a `PasswordlessClient` with
`has_open_session = true` but `close_on_drop = false` issues zero
session-close operations on drop, and finalizes the handle with `Success`
rather than its `last_code`. -/
theorem drop_without_close_cex :
    ({ close_on_drop := false, is_authenticated := true,
       has_open_session := true, last_code := PamReturnCode.other 9 } :
        PasswordlessClient).has_open_session = true ∧
    (dropClient
        { close_on_drop := false, is_authenticated := true,
          has_open_session := true, last_code := PamReturnCode.other 9 }
        PamReturnCode.Success).countP DropEvent.isCloseSession = 0 ∧
    (dropClient
        { close_on_drop := false, is_authenticated := true,
          has_open_session := true, last_code := PamReturnCode.other 9 }
        PamReturnCode.Success) =
      [DropEvent.endHandle PamReturnCode.Success] := by
  refine ⟨rfl, ?_, ?_⟩ <;>
    simp [dropClient, DropEvent.isCloseSession]

/-- Claim C2 (amended): for every `PasswordlessClient` being dropped with
`has_open_session = true` AND `close_on_drop = true`, exactly one
session-close operation is issued before the handle is finalized, the
handle is finalized exactly once regardless of the close's return code
(including a failing close), and the finalization receives the close's
status code; and for every client whatsoever the handle is finalized
exactly once. -/
theorem drop_close_once :
    (∀ (c : PasswordlessClient) (code : PamReturnCode),
      c.has_open_session = true → c.close_on_drop = true →
        dropClient c code =
          [DropEvent.closeSession code, DropEvent.endHandle code]) ∧
    (∀ (c : PasswordlessClient) (code : PamReturnCode),
      (dropClient c code).countP DropEvent.isEndHandle = 1) := by
  constructor
  · intro c code h1 h2
    simp [dropClient, h1, h2]
  · intro c code
    by_cases h : c.has_open_session ∧ c.close_on_drop <;>
      simp [dropClient, h, DropEvent.isEndHandle, DropEvent.isCloseSession]

/-- Witness for the amended C2: a client with an open session and a
failing close still gets exactly one close followed by one `end` carrying
the close's code. -/
theorem drop_close_once_w :
    dropClient
        { close_on_drop := true, is_authenticated := true,
          has_open_session := true, last_code := PamReturnCode.Success }
        (PamReturnCode.other 5) =
      [DropEvent.closeSession (PamReturnCode.other 5),
       DropEvent.endHandle (PamReturnCode.other 5)] :=
  drop_close_once.1
    { close_on_drop := true, is_authenticated := true,
      has_open_session := true, last_code := PamReturnCode.Success }
    (PamReturnCode.other 5) (by decide) (by decide)

/-- Claim C4: every client state the program can construct satisfies
`has_open_session ⇒ is_authenticated`, and calling `open_session` on an
unauthenticated client fails with `Perm_Denied` leaving the state (in
particular `has_open_session`) untouched. -/
theorem session_invariant :
    (∀ c, Reachable c → c.has_open_session = true →
      c.is_authenticated = true) ∧
    (∀ (c : PasswordlessClient) (code : PamReturnCode),
      c.is_authenticated = false →
        open_session c code = (c, Except.error PamReturnCode.Perm_Denied)) := by
  constructor
  · intro c hreach
    induction hreach with
    | init => intro hfalse; exact absurd hfalse (by decide)
    | @stepAuth c code hc ih =>
      intro hopen
      by_cases hcode : code = PamReturnCode.Success
      · simp [authenticate, hcode]
      · simp [authenticate, hcode] at hopen ⊢
        exact ih hopen
    | @stepOpen c code hc ih =>
      by_cases hauth : c.is_authenticated
      · by_cases hcode : code = PamReturnCode.Success <;>
          simp [open_session, hauth, hcode]
      · simpa [open_session, hauth] using ih
    | @stepGetEnv c o hc ih => exact ih
    | @stepSetEnv c k v o hc ih => exact ih
  · intro c code hauth
    simp [open_session, hauth]

/-- Witness for C4: the authenticated-then-opened client is reachable and
satisfies the implication; the fresh client is refused a session with
`Perm_Denied`. -/
theorem session_invariant_w :
    (open_session (authenticate new_client PamReturnCode.Success).1
        PamReturnCode.Success).1.is_authenticated = true ∧
    open_session new_client (PamReturnCode.other 0) =
      (new_client, Except.error PamReturnCode.Perm_Denied) :=
  ⟨session_invariant.1 _
      (Reachable.stepOpen (Reachable.stepAuth Reachable.init)) (by decide),
   session_invariant.2 new_client (PamReturnCode.other 0) (by decide)⟩

/-- Claim C5: a failing `authenticate` leaves both flags false (when they
were false, as on the freshly constructed client) and reports the failing
code; moreover no operation other than a successful `authenticate` ever
turns `is_authenticated` on. -/
theorem authenticate_failure_flags :
    (∀ (c : PasswordlessClient) (code : PamReturnCode),
      code ≠ PamReturnCode.Success → c.is_authenticated = false →
        c.has_open_session = false →
        ((authenticate c code).1.is_authenticated = false ∧
          (authenticate c code).1.has_open_session = false ∧
          (authenticate c code).2 = Except.error code)) ∧
    (∀ (c : PasswordlessClient) (code : PamReturnCode),
      code ≠ PamReturnCode.Success →
        (authenticate c code).1.is_authenticated = c.is_authenticated) ∧
    (∀ (c : PasswordlessClient) (code : PamReturnCode),
      (open_session c code).1.is_authenticated = c.is_authenticated) ∧
    (∀ (c : PasswordlessClient) o,
      (get_env c o).1.is_authenticated = c.is_authenticated) ∧
    (∀ (c : PasswordlessClient) k v o,
      (set_env c k v o).1.is_authenticated = c.is_authenticated) := by
  refine ⟨?_, ?_, ?_, ?_, ?_⟩
  · intro c code hcode hauth hopen
    simp [authenticate, hcode, hauth, hopen]
  · intro c code hcode
    simp [authenticate, hcode]
  · intro c code
    by_cases hauth : c.is_authenticated
    · by_cases hcode : code = PamReturnCode.Success <;>
        simp [open_session, hauth, hcode]
    · simp [open_session, hauth]
  · intro c o; rfl
  · intro c k v o; rfl

/-- Witness for C5: a fresh client whose authentication fails with
`Perm_Denied` keeps both flags false and reports the code. -/
theorem authenticate_failure_flags_w :
    (authenticate new_client PamReturnCode.Perm_Denied).1.is_authenticated =
        false ∧
      (authenticate new_client
          PamReturnCode.Perm_Denied).1.has_open_session = false ∧
      (authenticate new_client PamReturnCode.Perm_Denied).2 =
        Except.error PamReturnCode.Perm_Denied :=
  authenticate_failure_flags.1 new_client PamReturnCode.Perm_Denied
    (by decide) (by decide) (by decide)

/-- Claim C10: `get_env` and `set_env` are pure pass-throughs to the PAM
handle — every field of the client (`is_authenticated`,
`has_open_session`, `close_on_drop`, `last_code`) is unchanged by either
call. -/
theorem env_ops_frame :
    ∀ (c : PasswordlessClient) (k v : String)
      (o : Except PamReturnCode Unit)
      (g : Except PamReturnCode (Option String)),
      (set_env c k v o).1.is_authenticated = c.is_authenticated ∧
        (set_env c k v o).1.has_open_session = c.has_open_session ∧
        (set_env c k v o).1.close_on_drop = c.close_on_drop ∧
        (set_env c k v o).1.last_code = c.last_code ∧
        (get_env c g).1.is_authenticated = c.is_authenticated ∧
        (get_env c g).1.has_open_session = c.has_open_session ∧
        (get_env c g).1.close_on_drop = c.close_on_drop ∧
        (get_env c g).1.last_code = c.last_code :=
  fun c k v o g => ⟨rfl, rfl, rfl, rfl, rfl, rfl, rfl, rfl⟩

/-- One libinput event, classified the way `wait_for_keyboard_event`
matches on it (input.rs:47-55): `Keyboard(_)` against everything else.
The payload stands for the event's device/detail data. -/
inductive InputEv where
  | keyboard (id : Nat)
  | other (id : Nat)
deriving DecidableEq, Repr

/-- Is the event keyboard-class (matches the `Keyboard(_)` arm)? -/
def isKeyboard : InputEv → Bool
  | InputEv.keyboard _ => true
  | InputEv.other _ => false

/-- The `for event in &mut input` drain of one dispatched batch
(input.rs:46-56): scan in order, return at the first keyboard event,
print-and-discard everything else. -/
def scanEvents : List InputEv → Bool
  | [] => false
  | ev :: rest => if isKeyboard ev then true else scanEvents rest

/-- `wait_for_keyboard_event` (input.rs:35-58): the outer `loop` blocks on
`poll` (no timeout), dispatches, drains the ready batch, and polls again
when no keyboard event was drained.  The argument lists the successive
batches the poll/dispatch oracle delivers; the result says whether the
wait returned within those batches (`false` = still blocked waiting). -/
def wait_for_keyboard_event : List (List InputEv) → Bool
  | [] => false
  | batch :: more =>
    if scanEvents batch then true else wait_for_keyboard_event more

/-- A batch scan succeeds exactly when the batch holds a keyboard event. -/
theorem scanEvents_iff (l : List InputEv) :
    scanEvents l = true ↔ ∃ ev ∈ l, isKeyboard ev = true := by
  induction l with
  | nil => simp [scanEvents]
  | cons ev rest ih =>
    by_cases hev : isKeyboard ev = true <;>
      simp [scanEvents, hev, ih]

/-- Claim C7: the wait returns exactly when some drained batch contains a
keyboard-class event — so non-keyboard events never cause it to return
(they are discarded and the thread blocks on the next timeout-free poll),
and a drained keyboard event always does. -/
theorem wait_keyboard_iff :
    ∀ batches : List (List InputEv),
      (wait_for_keyboard_event batches = true ↔
        ∃ b ∈ batches, ∃ ev ∈ b, isKeyboard ev = true) := by
  intro batches
  induction batches with
  | nil => simp [wait_for_keyboard_event]
  | cons batch more ih =>
    by_cases hb : scanEvents batch = true
    · simp [wait_for_keyboard_event, hb, (scanEvents_iff batch).mp hb]
    · have : ¬ ∃ ev ∈ batch, isKeyboard ev = true :=
        fun hex => hb ((scanEvents_iff batch).mpr hex)
      simp [wait_for_keyboard_event, hb, ih, this]

/-- The keyboard mode denoting "VT input disabled" (main.rs:21). -/
def K_OFF : Nat := 0x04

/-- Oracle describing what the tty probe encounters (main.rs:107-118):
opening `/dev/tty1` yields ENOENT, some other error, or a file on which
the `KDGKBMODE` ioctl either fails or reports a keyboard mode. -/
inductive VtProbe where
  | notFound
  | openErr (os : Nat)
  | ioctlErr (os : Nat)
  | mode (m : Nat)
deriving DecidableEq, Repr

/-- Log severities used by `check_vt_status`. -/
inductive LogLevel where
  | info
  | warn
  | error
deriving DecidableEq, Repr

/-- `check_vt_status` (main.rs:106-134): a total diagnostic that matches
on the probe outcome and only emits one log line — it returns normally in
every case and surfaces nothing to its caller. -/
def check_vt_status : VtProbe → LogLevel × String
  | VtProbe.notFound =>
    (LogLevel.info, "/dev/tty1 not present - no VT-related input problem")
  | VtProbe.openErr _ => (LogLevel.error, "failed to open /dev/tty1")
  | VtProbe.ioctlErr _ => (LogLevel.error, "KDGKBMODE ioctl failed")
  | VtProbe.mode m =>
    if m = K_OFF then
      (LogLevel.info, "tty1 keyboard mode is K_OFF - VT input is disabled")
    else (LogLevel.warn, "tty1 keyboard mode is active - VT may consume input")

/-- The externally visible steps of `take_control` (main.rs:136-167) and
its callees, in program order.  `checkVt` carries the log line the probe
emitted. -/
inductive OEvent where
  | checkVt (log : LogLevel × String)
  | newClient
  | setEnvCall (key value : String)
  | authenticateCall (code : PamReturnCode)
  | openSessionCall (code : PamReturnCode)
  | getSessionIdCall
  | connectDbus
  | getAllProperties
  | takeControlMsg (force : Bool)
  | waitForKeyboard
  | releaseControlMsg
deriving DecidableEq, Repr

/-- Is the event a VT status probe? -/
def OEvent.isVtProbe : OEvent → Bool
  | OEvent.checkVt _ => true
  | _ => false

/-- Drop the diagnostic probe events from a trace. -/
def eraseVt (t : List OEvent) : List OEvent :=
  t.filter (fun ev => !(OEvent.isVtProbe ev))

/-- Oracle for one run of `take_control`: the outcome of every external
call, in program order.  `vt1`/`vt2`/`vt3` feed the three `check_vt_status`
probes; `waitReturns = false` models a keyboard wait that never completes
(or panics in its unwraps), so nothing after it runs. -/
structure OEnv where
  vt1 : VtProbe
  vt2 : VtProbe
  vt3 : VtProbe
  newClientOk : Bool
  setEnvTtyOk : Bool
  setEnvVtnrOk : Bool
  authCode : PamReturnCode
  openCode : PamReturnCode
  getEnvOk : Bool
  sessionId : Option String
  connectOk : Bool
  getAllOk : Bool
  takeOk : Bool
  waitReturns : Bool
  releaseOk : Bool
deriving Repr

/-- `start_pam_session` (main.rs:32-49): builds the client, sets the two
environment hints, authenticates, opens the session and reads back
`XDG_SESSION_ID`.  Any failing `expect` or `?` aborts right after the
failing call; the trace lists the operations issued and the flag says
whether the function returned successfully. -/
def start_pam_session (e : OEnv) : List OEvent × Bool :=
  if e.newClientOk = false then ([OEvent.newClient], false)
  else if e.setEnvTtyOk = false then
    ([OEvent.newClient, OEvent.setEnvCall "PAM_TTY" "tty1"], false)
  else if e.setEnvVtnrOk = false then
    ([OEvent.newClient, OEvent.setEnvCall "PAM_TTY" "tty1",
      OEvent.setEnvCall "XDG_VTNR" "1"], false)
  else if e.authCode ≠ PamReturnCode.Success then
    ([OEvent.newClient, OEvent.setEnvCall "PAM_TTY" "tty1",
      OEvent.setEnvCall "XDG_VTNR" "1",
      OEvent.authenticateCall e.authCode], false)
  else if e.openCode ≠ PamReturnCode.Success then
    ([OEvent.newClient, OEvent.setEnvCall "PAM_TTY" "tty1",
      OEvent.setEnvCall "XDG_VTNR" "1", OEvent.authenticateCall e.authCode,
      OEvent.openSessionCall e.openCode], false)
  else if e.getEnvOk = false then
    ([OEvent.newClient, OEvent.setEnvCall "PAM_TTY" "tty1",
      OEvent.setEnvCall "XDG_VTNR" "1", OEvent.authenticateCall e.authCode,
      OEvent.openSessionCall e.openCode, OEvent.getSessionIdCall], false)
  else if e.sessionId = none then
    ([OEvent.newClient, OEvent.setEnvCall "PAM_TTY" "tty1",
      OEvent.setEnvCall "XDG_VTNR" "1", OEvent.authenticateCall e.authCode,
      OEvent.openSessionCall e.openCode, OEvent.getSessionIdCall], false)
  else
    ([OEvent.newClient, OEvent.setEnvCall "PAM_TTY" "tty1",
      OEvent.setEnvCall "XDG_VTNR" "1", OEvent.authenticateCall e.authCode,
      OEvent.openSessionCall e.openCode, OEvent.getSessionIdCall], true)

/-- `send_take_control_message` (main.rs:57-85): first the diagnostic
`GetAll` properties call (whose `?` aborts on failure), then the
`TakeControl` method call, always with the literal `false` for `force`. -/
def send_take_control_message (e : OEnv) : List OEvent × Bool :=
  if e.getAllOk = false then ([OEvent.getAllProperties], false)
  else ([OEvent.getAllProperties, OEvent.takeControlMsg false], e.takeOk)

/-- `take_control` (main.rs:136-167): probe, `start_pam_session`, D-Bus
connect, `send_take_control_message`, probe, keyboard wait,
`send_release_control_message` (main.rs:87-104), probe.  Every failing
step aborts the rest of the sequence; the trace records the events
issued in program order and the flag reports whether the full sequence
completed. -/
def take_control (e : OEnv) : List OEvent × Bool :=
  if (start_pam_session e).2 = false then
    (OEvent.checkVt (check_vt_status e.vt1) :: (start_pam_session e).1,
     false)
  else if e.connectOk = false then
    (OEvent.checkVt (check_vt_status e.vt1) :: (start_pam_session e).1 ++
      [OEvent.connectDbus], false)
  else if (send_take_control_message e).2 = false then
    (OEvent.checkVt (check_vt_status e.vt1) :: (start_pam_session e).1 ++
      [OEvent.connectDbus] ++ (send_take_control_message e).1, false)
  else if e.waitReturns = false then
    (OEvent.checkVt (check_vt_status e.vt1) :: (start_pam_session e).1 ++
      [OEvent.connectDbus] ++ (send_take_control_message e).1 ++
      [OEvent.checkVt (check_vt_status e.vt2), OEvent.waitForKeyboard],
     false)
  else if e.releaseOk = false then
    (OEvent.checkVt (check_vt_status e.vt1) :: (start_pam_session e).1 ++
      [OEvent.connectDbus] ++ (send_take_control_message e).1 ++
      [OEvent.checkVt (check_vt_status e.vt2), OEvent.waitForKeyboard,
       OEvent.releaseControlMsg], false)
  else
    (OEvent.checkVt (check_vt_status e.vt1) :: (start_pam_session e).1 ++
      [OEvent.connectDbus] ++ (send_take_control_message e).1 ++
      [OEvent.checkVt (check_vt_status e.vt2), OEvent.waitForKeyboard,
       OEvent.releaseControlMsg, OEvent.checkVt (check_vt_status e.vt3)],
     true)

/-- No `TakeControl` message is ever issued inside `start_pam_session`. -/
theorem start_pam_session_no_take (e : OEnv) (f : Bool) :
    OEvent.takeControlMsg f ∉ (start_pam_session e).1 := by
  rw [start_pam_session]
  repeat' split
  all_goals simp

/-- The keyboard wait never happens inside `start_pam_session`. -/
theorem start_pam_session_no_wait (e : OEnv) :
    OEvent.waitForKeyboard ∉ (start_pam_session e).1 := by
  rw [start_pam_session]
  repeat' split
  all_goals simp

/-- No `ReleaseControl` message is ever issued inside
`start_pam_session`. -/
theorem start_pam_session_no_release (e : OEnv) :
    OEvent.releaseControlMsg ∉ (start_pam_session e).1 := by
  rw [start_pam_session]
  repeat' split
  all_goals simp

/-- `start_pam_session` only returns successfully when authentication and
session opening succeeded and the session identifier was read back. -/
theorem start_pam_session_success (e : OEnv)
    (h : (start_pam_session e).2 = true) :
    e.authCode = PamReturnCode.Success ∧
      e.openCode = PamReturnCode.Success ∧
      e.getEnvOk = true ∧ e.sessionId ≠ none := by
  rw [start_pam_session] at h
  repeat' split at h
  all_goals simp_all

/-- Any `TakeControl` message issued by `send_take_control_message`
carries `force = false`. -/
theorem send_take_control_take (e : OEnv) (f : Bool)
    (h : OEvent.takeControlMsg f ∈ (send_take_control_message e).1) :
    f = false := by
  rw [send_take_control_message] at h
  split at h
  all_goals simp_all

/-- The keyboard wait never happens inside `send_take_control_message`. -/
theorem send_take_control_no_wait (e : OEnv) :
    OEvent.waitForKeyboard ∉ (send_take_control_message e).1 := by
  rw [send_take_control_message]
  split
  all_goals simp

/-- No `ReleaseControl` message is issued inside
`send_take_control_message`. -/
theorem send_take_control_no_release (e : OEnv) :
    OEvent.releaseControlMsg ∉ (send_take_control_message e).1 := by
  rw [send_take_control_message]
  split
  all_goals simp

/-- When `send_take_control_message` succeeds its trace is exactly the
properties call followed by `TakeControl(false)`. -/
theorem send_take_control_success (e : OEnv)
    (h : (send_take_control_message e).2 = true) :
    (send_take_control_message e).1 =
      [OEvent.getAllProperties, OEvent.takeControlMsg false] := by
  rw [send_take_control_message] at h ⊢
  split at h
  all_goals simp_all

/-- Claim C6: in every run of the orchestrator, the `TakeControl` message
is never sent when `authenticate` failed, `open_session` failed, or no
session identifier could be read back; when it is sent it carries
`force = false`; the keyboard wait only ever starts after the
`TakeControl` message; and the `ReleaseControl` message is only ever sent
after `TakeControl` and the wait, in that order. -/
theorem take_control_order :
    (∀ (e : OEnv) (f : Bool),
      (e.authCode ≠ PamReturnCode.Success ∨
          e.openCode ≠ PamReturnCode.Success ∨
          e.getEnvOk = false ∨ e.sessionId = none) →
        OEvent.takeControlMsg f ∉ (take_control e).1) ∧
    (∀ (e : OEnv) (f : Bool),
      OEvent.takeControlMsg f ∈ (take_control e).1 → f = false) ∧
    (∀ e : OEnv, OEvent.waitForKeyboard ∈ (take_control e).1 →
      List.Sublist [OEvent.takeControlMsg false, OEvent.waitForKeyboard]
        (take_control e).1) ∧
    (∀ e : OEnv, OEvent.releaseControlMsg ∈ (take_control e).1 →
      List.Sublist
        [OEvent.takeControlMsg false, OEvent.waitForKeyboard,
          OEvent.releaseControlMsg]
        (take_control e).1) := by
  refine ⟨?_, ?_, ?_, ?_⟩
  · intro e f h
    have hp : (start_pam_session e).2 = false := by
      cases hb : (start_pam_session e).2
      · rfl
      · obtain ⟨ha, ho, hg, hs⟩ := start_pam_session_success e hb
        rcases h with h | h | h | h
        · exact absurd ha h
        · exact absurd ho h
        · simp [hg] at h
        · exact absurd h hs
    rw [take_control, if_pos hp]
    simp [start_pam_session_no_take e f]
  · intro e f
    rw [take_control]
    repeat' split
    all_goals intro hmem
    all_goals simp [start_pam_session_no_take e f] at hmem
    all_goals exact send_take_control_take e f hmem
  · intro e
    rw [take_control]
    repeat' split
    all_goals intro hmem
    case _ => simp [start_pam_session_no_wait e] at hmem
    case _ => simp [start_pam_session_no_wait e] at hmem
    case _ =>
      simp [start_pam_session_no_wait e, send_take_control_no_wait e]
        at hmem
    case _ =>
      rename_i hp hc hs hw
      have hs2 : (send_take_control_message e).2 = true := by
        simpa using hs
      rw [send_take_control_success e hs2]
      exact List.Sublist.cons _
        (List.Sublist.append
          ((List.Sublist.cons _
              (List.Sublist.cons₂ _ List.Sublist.slnil)).trans
            (List.sublist_append_right _ _))
          (List.Sublist.cons _
            (List.Sublist.cons₂ _ List.Sublist.slnil)))
    case _ =>
      rename_i hp hc hs hw hr
      have hs2 : (send_take_control_message e).2 = true := by
        simpa using hs
      rw [send_take_control_success e hs2]
      exact List.Sublist.cons _
        (List.Sublist.append
          ((List.Sublist.cons _
              (List.Sublist.cons₂ _ List.Sublist.slnil)).trans
            (List.sublist_append_right _ _))
          (List.Sublist.cons _
            (List.Sublist.cons₂ _ (List.nil_sublist _))))
    case _ =>
      rename_i hp hc hs hw hr
      have hs2 : (send_take_control_message e).2 = true := by
        simpa using hs
      rw [send_take_control_success e hs2]
      exact List.Sublist.cons _
        (List.Sublist.append
          ((List.Sublist.cons _
              (List.Sublist.cons₂ _ List.Sublist.slnil)).trans
            (List.sublist_append_right _ _))
          (List.Sublist.cons _
            (List.Sublist.cons₂ _ (List.nil_sublist _))))
  · intro e
    rw [take_control]
    repeat' split
    all_goals intro hmem
    case _ => simp [start_pam_session_no_release e] at hmem
    case _ => simp [start_pam_session_no_release e] at hmem
    case _ =>
      simp [start_pam_session_no_release e, send_take_control_no_release e]
        at hmem
    case _ =>
      simp [start_pam_session_no_release e, send_take_control_no_release e]
        at hmem
    case _ =>
      rename_i hp hc hs hw hr
      have hs2 : (send_take_control_message e).2 = true := by
        simpa using hs
      rw [send_take_control_success e hs2]
      exact List.Sublist.cons _
        (List.Sublist.append
          ((List.Sublist.cons _
              (List.Sublist.cons₂ _ List.Sublist.slnil)).trans
            (List.sublist_append_right _ _))
          (List.Sublist.cons _
            (List.Sublist.cons₂ _
              (List.Sublist.cons₂ _ List.Sublist.slnil))))
    case _ =>
      rename_i hp hc hs hw hr
      have hs2 : (send_take_control_message e).2 = true := by
        simpa using hs
      rw [send_take_control_success e hs2]
      exact List.Sublist.cons _
        (List.Sublist.append
          ((List.Sublist.cons _
              (List.Sublist.cons₂ _ List.Sublist.slnil)).trans
            (List.sublist_append_right _ _))
          (List.Sublist.cons _
            (List.Sublist.cons₂ _
              (List.Sublist.cons₂ _ (List.nil_sublist _)))))

/-- An environment whose authentication fails with `Perm_Denied`. -/
def envBadAuth : OEnv :=
  { vt1 := VtProbe.notFound, vt2 := VtProbe.notFound,
    vt3 := VtProbe.notFound, newClientOk := true, setEnvTtyOk := true,
    setEnvVtnrOk := true, authCode := PamReturnCode.Perm_Denied,
    openCode := PamReturnCode.Success, getEnvOk := true,
    sessionId := some "3", connectOk := true, getAllOk := true,
    takeOk := true, waitReturns := true, releaseOk := true }

/-- An environment in which every external call succeeds. -/
def envAllOk : OEnv :=
  { vt1 := VtProbe.notFound, vt2 := VtProbe.mode 4,
    vt3 := VtProbe.mode 0, newClientOk := true, setEnvTtyOk := true,
    setEnvVtnrOk := true, authCode := PamReturnCode.Success,
    openCode := PamReturnCode.Success, getEnvOk := true,
    sessionId := some "3", connectOk := true, getAllOk := true,
    takeOk := true, waitReturns := true, releaseOk := true }

/-- Witness for C6: with failing authentication no `TakeControl` message
appears; in the all-success run the `TakeControl(false)`, wait, and
`ReleaseControl` events appear in that order. -/
theorem take_control_order_w :
    OEvent.takeControlMsg false ∉ (take_control envBadAuth).1 ∧
      List.Sublist
        [OEvent.takeControlMsg false, OEvent.waitForKeyboard,
          OEvent.releaseControlMsg]
        (take_control envAllOk).1 :=
  ⟨take_control_order.1 envBadAuth false (Or.inl (by decide)),
   take_control_order.2.2.2 envAllOk (by decide)⟩

/-- Claim C8: the VT status probe reports a missing `/dev/tty1` as
informational, reports any other open failure and any ioctl failure as a
mere error log, and — being a total function that surfaces nothing to the
caller — never changes the orchestrator's behaviour: the non-probe events
and the overall outcome of `take_control` are the same whatever the three
probes encounter. -/
theorem vt_probe_harmless :
    ((check_vt_status VtProbe.notFound).1 = LogLevel.info) ∧
      (∀ n, (check_vt_status (VtProbe.openErr n)).1 = LogLevel.error) ∧
      (∀ n, (check_vt_status (VtProbe.ioctlErr n)).1 = LogLevel.error) ∧
      (∀ (e : OEnv) (v1 v2 v3 : VtProbe),
        eraseVt (take_control { e with vt1 := v1, vt2 := v2, vt3 := v3 }).1 =
            eraseVt (take_control e).1 ∧
          (take_control { e with vt1 := v1, vt2 := v2, vt3 := v3 }).2 =
            (take_control e).2) := by
  refine ⟨rfl, fun n => rfl, fun n => rfl, ?_⟩
  intro e v1 v2 v3
  have hpam : start_pam_session { e with vt1 := v1, vt2 := v2, vt3 := v3 } =
      start_pam_session e := rfl
  have hstc :
      send_take_control_message { e with vt1 := v1, vt2 := v2, vt3 := v3 } =
        send_take_control_message e := rfl
  simp only [take_control]
  rw [hpam, hstc]
  repeat' split
  all_goals simp [eraseVt, OEvent.isVtProbe]

end Fallbackdm
